import Mathlib

/-!
# Verification of the `sarvcrm_api` client library

A shallow embedding, in Lean 4, of the request-construction and
response-normalization layer of the `py-sarvcrm-api` repository
(`sarvcrm_api/sarv_client.py` and `sarvcrm_api/modules/_base.py`),
together with theorems checking the natural-language specification
against it.

Python values that may appear in JSON bodies, query-parameter maps and
header maps are modelled by the inductive `JValue`; Python dictionaries
are modelled as ordered association lists (`List (String × JValue)`),
with `dictInsert` giving the semantics of a Python store `d[k] = v`
(replace in place, else append) and `dictGet` those of `d.get(k)`.
-/

/-- Model of a Python/JSON value as it occurs in request and response
payloads: `None`, booleans, integers, strings, lists and dictionaries. -/
inductive JValue where
  | null : JValue
  | bool (b : Bool) : JValue
  | num (n : Int) : JValue
  | str (s : String) : JValue
  | arr (elems : List JValue) : JValue
  | obj (fields : List (String × JValue)) : JValue
  deriving Repr, Inhabited

/-- Model of the Python test `v is None`. -/
def JValue.isNull : JValue → Bool
  | .null => true
  | _ => false

/-- Python truthiness of a value: `None`, `False`, `0`, the empty string,
the empty list and the empty dict are falsy, everything else is truthy.
Used for `if data:` and `if self.token:` in `sarv_client.py`. -/
def JValue.truthy : JValue → Bool
  | .null => false
  | .bool b => b
  | .num n => n ≠ 0
  | .str s => s ≠ ""
  | .arr l => !l.isEmpty
  | .obj l => !l.isEmpty

mutual

/-- Model of the Python `repr` of a value (as used by `str()` on
containers). -/
def JValue.pyRepr : JValue → String
  | .null => "None"
  | .bool true => "True"
  | .bool false => "False"
  | .num n => toString n
  | .str s => "\x27" ++ s ++ "\x27"
  | .arr xs => "[" ++ String.intercalate ", " (JValue.pyReprList xs) ++ "]"
  | .obj kvs => "\x7b" ++ String.intercalate ", " (JValue.pyReprObj kvs) ++ "\x7d"

def JValue.pyReprList : List JValue → List String
  | [] => []
  | x :: xs => JValue.pyRepr x :: JValue.pyReprList xs

def JValue.pyReprObj : List (String × JValue) → List String
  | [] => []
  | (k, v) :: xs => ("\x27" ++ k ++ "\x27: " ++ JValue.pyRepr v) :: JValue.pyReprObj xs

end

/-- Model of the Python `str()` of a value, as interpolated by an
f-string: a string stands for itself, every other value for its `repr`. -/
def JValue.pyStr : JValue → String
  | .str s => s
  | v => JValue.pyRepr v

/-- An ordered Python dictionary with string keys. -/
abbrev PyDict := List (String × JValue)

/-- Model of Python `d.get(k)`: the value of the first (and in a real
dict, only) entry with key `k`, if any. -/
def dictGet (d : PyDict) (k : String) : Option JValue :=
  match d with
  | [] => none
  | (k2, v) :: rest => if k2 = k then some v else dictGet rest k

/-- Model of Python `d.get(k, default)`. -/
def dictGetD (d : PyDict) (k : String) (default : JValue) : JValue :=
  (dictGet d k).getD default

/-- Model of a Python store `d[k] = v`: replace the entry with key `k` in
place if present, otherwise append a new entry at the end. -/
def dictInsert (d : PyDict) (k : String) (v : JValue) : PyDict :=
  match d with
  | [] => [(k, v)]
  | (k2, v2) :: rest =>
    if k2 = k then (k2, v) :: rest else (k2, v2) :: dictInsert rest k v

/-- Model of Python `d.update(adds)`: insert the entries of `adds` in
order. -/
def dictUpdate (d : PyDict) (adds : PyDict) : PyDict :=
  adds.foldl (fun acc kv => dictInsert acc kv.1 kv.2) d

/-- Source `sarvcrm_api/modules/_base.py`, class `SarvModule`: the static
identity of a CRM module (`_module_name`, `_label_en`, `_label_pr`).
The leading underscores of the Python attribute names are dropped. -/
structure SarvModule where
  module_name : String := ""
  label_en : String := "BASE_CLASS"
  label_pr : String := "کلاس اصلی"
  deriving Repr

/-- Mutable state of a `SarvClient` instance
(`sarv_client.py`, `SarvClient.__init__`).  The token starts as the
empty string but `login` can later store any JSON value in it, so it is
a `JValue`. -/
structure ClientState where
  base_url : String
  utype : String
  username : String
  password : String
  login_type : Option String
  language : String
  token : JValue
  deriving Repr

/-- Source `SarvClient.create_get_parms` (`sarv_client.py` lines 47-74):
build the query-parameter map from the operation name, the module
argument (a `SarvModule` handle, a raw string, or absent) and extra
named parameters.  The `method` and `module` entries whose value is
`None` are dropped; the extra parameters are then merged in by
`dict.update` without any filtering. -/
def SarvClient.create_get_parms (sarv_get_method : Option String)
    (sarv_module : Option (SarvModule ⊕ String)) (addition : PyDict) :
    PyDict :=
  let module_name : Option String :=
    match sarv_module with
    | none => none
    | some (Sum.inl m) => some m.module_name
    | some (Sum.inr s) => some s
  let toJ : Option String → JValue := fun
    | none => JValue.null
    | some s => JValue.str s
  let get_parms : PyDict :=
    [("method", toJ sarv_get_method), ("module", toJ module_name)]
  let get_parms := get_parms.filter (fun kv => ¬ kv.2.isNull)
  dictUpdate get_parms addition

/-- Source `SarvModule.create_get_parms` (`modules/_base.py` lines
30-41): delegate to the client, passing the handle itself as the module
argument. -/
def SarvModule.create_get_parms (m : SarvModule)
    (sarv_get_method : Option String) (addition : PyDict) : PyDict :=
  SarvClient.create_get_parms sarv_get_method (some (Sum.inl m)) addition

/-!
## MD5

Model of `hashlib.md5(password.encode("utf-8")).hexdigest()` as used in
`SarvClient.__init__` (`sarv_client.py` line 40), over `Nat` with
explicit reduction modulo `2 ^ 32`.
-/

/-- Reduction of a machine word modulo `2 ^ 32`. -/
def u32 (x : Nat) : Nat := x % 4294967296

/-- Bitwise complement of a 32-bit word. -/
def u32not (x : Nat) : Nat := 4294967295 - u32 x

/-- Left rotation of a 32-bit word by `c` bits. -/
def rotl (x c : Nat) : Nat := u32 (x * 2 ^ c + x / 2 ^ (32 - c))

/-- Per-round left-rotation amounts of MD5. -/
def md5_s : List Nat :=
  [7, 12, 17, 22, 7, 12, 17, 22, 7, 12, 17, 22, 7, 12, 17, 22,
   5, 9, 14, 20, 5, 9, 14, 20, 5, 9, 14, 20, 5, 9, 14, 20,
   4, 11, 16, 23, 4, 11, 16, 23, 4, 11, 16, 23, 4, 11, 16, 23,
   6, 10, 15, 21, 6, 10, 15, 21, 6, 10, 15, 21, 6, 10, 15, 21]

/-- Per-round additive constants of MD5 (the binary expansion of the
sines of 1..64, as in RFC 1321). -/
def md5_K : List Nat :=
  [0xd76aa478, 0xe8c7b756, 0x242070db, 0xc1bdceee,
   0xf57c0faf, 0x4787c62a, 0xa8304613, 0xfd469501,
   0x698098d8, 0x8b44f7af, 0xffff5bb1, 0x895cd7be,
   0x6b901122, 0xfd987193, 0xa679438e, 0x49b40821,
   0xf61e2562, 0xc040b340, 0x265e5a51, 0xe9b6c7aa,
   0xd62f105d, 0x02441453, 0xd8a1e681, 0xe7d3fbc8,
   0x21e1cde6, 0xc33707d6, 0xf4d50d87, 0x455a14ed,
   0xa9e3e905, 0xfcefa3f8, 0x676f02d9, 0x8d2a4c8a,
   0xfffa3942, 0x8771f681, 0x6d9d6122, 0xfde5380c,
   0xa4beea44, 0x4bdecfa9, 0xf6bb4b60, 0xbebfbc70,
   0x289b7ec6, 0xeaa127fa, 0xd4ef3085, 0x04881d05,
   0xd9d4d039, 0xe6db99e5, 0x1fa27cf8, 0xc4ac5665,
   0xf4292244, 0x432aff97, 0xab9423a7, 0xfc93a039,
   0x655b59c3, 0x8f0ccc92, 0xffeff47d, 0x85845dd1,
   0x6fa87e4f, 0xfe2ce6e0, 0xa3014314, 0x4e0811a1,
   0xf7537e82, 0xbd3af235, 0x2ad7d2bb, 0xeb86d391]

/-- Grouping of a byte list into little-endian 32-bit words. -/
def le_words : List Nat → List Nat
  | b0 :: b1 :: b2 :: b3 :: rest =>
    (b0 + 256 * b1 + 65536 * b2 + 16777216 * b3) :: le_words rest
  | _ => []

/-- One of the 64 MD5 rounds, acting on the register quadruple. -/
def md5_step (M : List Nat) (st : Nat × Nat × Nat × Nat) (i : Nat) :
    Nat × Nat × Nat × Nat :=
  let (a, b, c, d) := st
  let f :=
    if i < 16 then Nat.lor (Nat.land b c) (Nat.land (u32not b) d)
    else if i < 32 then Nat.lor (Nat.land d b) (Nat.land (u32not d) c)
    else if i < 48 then Nat.xor b (Nat.xor c d)
    else Nat.xor c (Nat.lor b (u32not d))
  let g :=
    if i < 16 then i
    else if i < 32 then (5 * i + 1) % 16
    else if i < 48 then (3 * i + 5) % 16
    else (7 * i) % 16
  let tmp := u32 (a + f + md5_K.getD i 0 + M.getD g 0)
  (d, u32 (b + rotl tmp (md5_s.getD i 0)), b, c)

/-- Running MD5 digest state. -/
structure MD5State where
  a0 : Nat
  b0 : Nat
  c0 : Nat
  d0 : Nat

/-- Compression of one 64-byte block into the digest state. -/
def md5_block (st : MD5State) (block : List Nat) : MD5State :=
  let M := le_words block
  let r := (List.range 64).foldl (md5_step M) (st.a0, st.b0, st.c0, st.d0)
  ⟨u32 (st.a0 + r.1), u32 (st.b0 + r.2.1), u32 (st.c0 + r.2.2.1),
   u32 (st.d0 + r.2.2.2)⟩

/-- Folding of `md5_block` over the 64-byte blocks of a padded message.
The fuel argument (instantiated with the message length) keeps the
recursion structural so that it reduces inside the kernel. -/
def md5_chunks : Nat → List Nat → MD5State → MD5State
  | _, [], st => st
  | 0, _, st => st
  | fuel + 1, l, st => md5_chunks fuel (l.drop 64) (md5_block st (l.take 64))

/-- Little-endian byte expansion of a 64-bit length field. -/
def le8 (n : Nat) : List Nat :=
  [n % 256, n / 2 ^ 8 % 256, n / 2 ^ 16 % 256, n / 2 ^ 24 % 256,
   n / 2 ^ 32 % 256, n / 2 ^ 40 % 256, n / 2 ^ 48 % 256, n / 2 ^ 56 % 256]

/-- MD5 padding: a `0x80` byte, zeros up to 56 mod 64, then the bit
length in 64 bits little-endian. -/
def md5_pad (msg : List Nat) : List Nat :=
  let len := msg.length
  let padlen := (119 - len % 64) % 64
  msg ++ [128] ++ List.replicate padlen 0 ++ le8 (8 * len % 2 ^ 64)

/-- UTF-8 encoding of a single code point, as a list of bytes. -/
def utf8EncodeCharNat (n : Nat) : List Nat :=
  if n < 128 then [n]
  else if n < 2048 then [192 + n / 64, 128 + n % 64]
  else if n < 65536 then [224 + n / 4096, 128 + n / 64 % 64, 128 + n % 64]
  else [240 + n / 262144, 128 + n / 4096 % 64, 128 + n / 64 % 64, 128 + n % 64]

/-- Model of Python `s.encode("utf-8")`. -/
def utf8Encode (s : String) : List Nat :=
  s.data.foldr (fun c acc => utf8EncodeCharNat c.toNat ++ acc) []

/-- Lower-case hexadecimal digit. -/
def hexDigitChar (n : Nat) : String :=
  ["0", "1", "2", "3", "4", "5", "6", "7",
   "8", "9", "a", "b", "c", "d", "e", "f"].getD n "0"

/-- Two-digit lower-case hexadecimal rendering of a byte. -/
def byteHex (b : Nat) : String := hexDigitChar (b / 16) ++ hexDigitChar (b % 16)

/-- Little-endian byte expansion of a 32-bit word. -/
def wordLEBytes (w : Nat) : List Nat :=
  [w % 256, w / 256 % 256, w / 65536 % 256, w / 16777216 % 256]

/-- Model of `hashlib.md5(s.encode("utf-8")).hexdigest()`. -/
def md5_hex (s : String) : String :=
  let padded := md5_pad (utf8Encode s)
  let st := md5_chunks padded.length padded
    ⟨0x67452301, 0xefcdab89, 0x98badcfe, 0x10325476⟩
  String.join ((wordLEBytes st.a0 ++ wordLEBytes st.b0 ++
    wordLEBytes st.c0 ++ wordLEBytes st.d0).map byteHex)

/-!
## Client construction, headers, login, logout
-/

/-- Source `SarvClient.__init__` (`sarv_client.py` lines 19-44): store
the configuration; the password is stored verbatim when
`is_password_md5` is true and replaced by its MD5 hex digest otherwise;
the token starts as the empty string. -/
def SarvClient.init (base_url utype username password : String)
    (login_type : Option String) (language : String)
    (is_password_md5 : Bool) : ClientState :=
  { base_url := base_url
    utype := utype
    username := username
    password := if is_password_md5 then password else md5_hex password
    login_type := login_type
    language := language
    token := JValue.str "" }

/-- Header phase of `SarvClient.send_request` (`sarv_client.py` lines
122-126), applied to the dictionary bound to `head_parms` after the
`head_parms or` defaulting: always store `Content-Type:
application/json`; store `Authorization: Bearer <token>` only when the
token is truthy. -/
def SarvClient.build_head_parms (token : JValue) (head_parms : PyDict) :
    PyDict :=
  let h := dictInsert head_parms "Content-Type" (JValue.str "application/json")
  if token.truthy then
    dictInsert h "Authorization" (JValue.str ("Bearer " ++ token.pyStr))
  else h

/-- Net effect of `SarvClient.send_request` on the dictionary object the
caller passed as `head_parms`.  Line 118 of `sarv_client.py` rebinds
`head_parms = head_parms or` a fresh dict, so when the caller passes an
empty (falsy) dict the header stores on lines 123-126 go to the fresh
dict and the caller object is left untouched; a non-empty dict is
mutated in place. -/
def SarvClient.send_request_head_effect (token : JValue) (caller : PyDict) :
    PyDict :=
  if caller.isEmpty then caller
  else SarvClient.build_head_parms token caller

/-- Source `SarvClient.logout` (`sarv_client.py` lines 189-192): reset
the token to the empty string when it is truthy, otherwise leave it. -/
def SarvClient.logout (s : ClientState) : ClientState :=
  if s.token.truthy then { s with token := JValue.str "" } else s

/-!
## Response interpretation

Model of the status-code branching of `SarvClient.send_request`
(`sarv_client.py` lines 139-162).  The transport response carries the
HTTP status code and, when its text is a JSON object, the decoded body
(`none` models a body on which `json.loads` fails; bodies decoding to a
non-object JSON value are outside this model, no claim mentions them).
-/

/-- HTTP response as seen by `send_request`: the status code and the
body, already decoded when it is a JSON object. -/
structure HttpResponse where
  status_code : Nat
  body : Option PyDict

/-- Possible outcomes of the response-interpretation phase of
`send_request`, one constructor per exit point of the Python code:
the `data` return (line 152), the two `SarvException` raise sites for
3xx (line 155) and 4xx (line 160), the `response.raise_for_status()`
call (line 147) which raises `requests.HTTPError` exactly for statuses
in [400, 600), a `json.JSONDecodeError` escaping `json.loads` (line
143), and the `UnboundLocalError` reached when a status below 200 or of
600 and above falls through `raise_for_status` and line 161 then reads
`response_dict`, which was never assigned. -/
inductive SendResult where
  | success (data : JValue) : SendResult
  | redirectionError (status : Nat) (message : JValue) : SendResult
  | apiError (status : Nat) (message : JValue) : SendResult
  | transportError (status : Nat) : SendResult
  | jsonDecodeError : SendResult
  | unboundLocalError : SendResult
  deriving Repr

/-- Status-code branching of `SarvClient.send_request` (`sarv_client.py`
lines 139-162): decode the body for statuses in [200, 500); return the
`data` field (default the empty dict) for 2xx; raise for 3xx and 4xx
with the `message` field (default "Unknown error"); for other statuses
call `raise_for_status`, which raises exactly when the status is in
[400, 600) — a status below 200 or of 600 and above falls through it
and then fails on the unassigned `response_dict`. -/
def SarvClient.interpret_response (r : HttpResponse) : SendResult :=
  if 200 ≤ r.status_code ∧ r.status_code < 500 then
    match r.body with
    | none => SendResult.jsonDecodeError
    | some response_dict =>
      if 200 ≤ r.status_code ∧ r.status_code < 300 then
        SendResult.success (dictGetD response_dict "data" (JValue.obj []))
      else if 300 ≤ r.status_code ∧ r.status_code < 400 then
        SendResult.redirectionError r.status_code
          (dictGetD response_dict "message" (JValue.str "Unknown error"))
      else
        SendResult.apiError r.status_code
          (dictGetD response_dict "message" (JValue.str "Unknown error"))
  else if 400 ≤ r.status_code ∧ r.status_code < 600 then
    SendResult.transportError r.status_code
  else SendResult.unboundLocalError

/-- Query, body and verb of an HTTP request as assembled by the client,
mirroring the keyword arguments of the `requests` call
(`sarv_client.py` lines 131-137). -/
structure RequestSpec where
  request_method : String
  get_parms : PyDict
  post_parms : PyDict
  deriving Repr

/-- Body dict built by `SarvClient.login` (`sarv_client.py` lines
168-175): the credentials, with entries whose value is `None` dropped
by the dict comprehension. -/
def SarvClient.login_post_parms (s : ClientState) : PyDict :=
  ([("utype", JValue.str s.utype),
    ("user_name", JValue.str s.username),
    ("password", JValue.str s.password),
    ("login_type", match s.login_type with
      | none => JValue.null
      | some lt => JValue.str lt),
    ("language", JValue.str s.language)]).filter (fun kv => ¬ kv.2.isNull)

/-- Request issued by `SarvClient.login` (`sarv_client.py` lines
177-181): a POST whose query parameters come from
`create_get_parms("Login")` and whose body is `login_post_parms`. -/
def SarvClient.login_request (s : ClientState) : RequestSpec :=
  { request_method := "POST"
    get_parms := SarvClient.create_get_parms (some "Login") none []
    post_parms := SarvClient.login_post_parms s }

/-- State-and-return step of `SarvClient.login` after `send_request` has
produced the `data` envelope (`sarv_client.py` lines 183-186): when
`data` is truthy the token becomes `data.get("token")` — an
`AttributeError` when a truthy `data` is not a dict — and the (possibly
updated) token is returned. -/
def SarvClient.login_step (s : ClientState) (data : JValue) :
    Except String (ClientState × JValue) :=
  if data.truthy then
    match data with
    | JValue.obj d =>
      let s2 := { s with token := dictGetD d "token" JValue.null }
      Except.ok (s2, s2.token)
    | _ => Except.error "AttributeError: no attribute get"
  else Except.ok (s, s.token)

/-!
## Module record reading
-/

/-- Request issued by `SarvModule.read_record` (`modules/_base.py` lines
95-108): a GET with query parameters from
`create_get_parms("Retrieve", id=pk)` and no body. -/
def SarvModule.read_record_request (m : SarvModule) (pk : String) :
    RequestSpec :=
  { request_method := "GET"
    get_parms := m.create_get_parms (some "Retrieve") [("id", JValue.str pk)]
    post_parms := [] }

/-- Model of the Python subscript `data[0]` applied by
`SarvModule.read_record` to the payload `send_request` returned: the
head of a non-empty list, an `IndexError` on an empty list or string,
the first character of a non-empty string, and a `KeyError` or
`TypeError` on the remaining shapes. -/
def pyIndexZero : JValue → Except String JValue
  | JValue.arr [] => Except.error "IndexError: list index out of range"
  | JValue.arr (x :: _) => Except.ok x
  | JValue.str s =>
    if s.isEmpty then Except.error "IndexError: string index out of range"
    else Except.ok (JValue.str (String.singleton s.front))
  | JValue.obj _ => Except.error "KeyError: 0"
  | _ => Except.error "TypeError: object is not subscriptable"

/-- Full outcome of `SarvModule.read_record` once the server payload is
fixed: the request it sends and the result of indexing the payload. -/
def SarvModule.read_record_result (m : SarvModule) (pk : String)
    (data : JValue) : RequestSpec × Except String JValue :=
  (m.read_record_request pk, pyIndexZero data)

/-!
## Time formatting

Model of `SarvClient.iso_time_output` (`sarv_client.py` lines 77-104).
Aware datetimes are modelled as civil fields plus a fixed UTC offset in
seconds; the ambient "current instant" and the interpreter's local
timezone (used by `datetime.now` and `astimezone`) are passed in as an
explicit environment.  The calendar arithmetic follows the proleptic
Gregorian calendar, as Python's `datetime` does.
-/

/-- An aware `datetime.datetime`: civil fields plus the UTC offset of
its timezone, in seconds. -/
structure PyDatetime where
  year : Int
  month : Nat
  day : Nat
  hour : Nat
  minute : Nat
  second : Nat
  utc_offset : Int
  deriving Repr

/-- A `datetime.timedelta`, collapsed to its total seconds. -/
structure PyTimedelta where
  total_seconds : Int
  deriving Repr

/-- Ambient state consulted by `iso_time_output`: the current instant
(for `datetime.now(timezone.utc)`, so its offset is zero) and the local
timezone offset applied by `astimezone()`. -/
structure TimeEnv where
  now_utc : PyDatetime
  local_offset : Int
  deriving Repr

/-- Days from 1970-01-01 of a civil date in the proleptic Gregorian
calendar. -/
def days_from_civil (y : Int) (m d : Nat) : Int :=
  let y2 : Int := y - (if m ≤ 2 then 1 else 0)
  let era : Int := Int.fdiv y2 400
  let yoe : Int := y2 - era * 400
  let mp : Int := (m : Int) + (if m > 2 then -3 else 9)
  let doy : Int := (153 * mp + 2) / 5 + (d : Int) - 1
  let doe : Int := yoe * 365 + yoe / 4 - yoe / 100 + doy
  era * 146097 + doe - 719468

/-- Civil date of a day count from 1970-01-01, inverse of
`days_from_civil`. -/
def civil_from_days (z : Int) : Int × Nat × Nat :=
  let z2 := z + 719468
  let era := Int.fdiv z2 146097
  let doe := z2 - era * 146097
  let yoe := (doe - doe / 1460 + doe / 36524 - doe / 146096) / 365
  let y := yoe + era * 400
  let doy := doe - (365 * yoe + yoe / 4 - yoe / 100)
  let mp := (5 * doy + 2) / 153
  let d := doy - (153 * mp + 2) / 5 + 1
  let m := mp + (if mp < 10 then 3 else -9)
  (y + (if m ≤ 2 then 1 else 0), m.toNat, d.toNat)

/-- Seconds from the epoch of the instant an aware datetime denotes. -/
def PyDatetime.toEpochSeconds (dt : PyDatetime) : Int :=
  days_from_civil dt.year dt.month dt.day * 86400
    + dt.hour * 3600 + dt.minute * 60 + dt.second - dt.utc_offset

/-- Aware datetime at a given UTC offset denoting a given epoch
instant. -/
def PyDatetime.ofEpochSeconds (t off : Int) : PyDatetime :=
  let lcl := t + off
  let days := Int.fdiv lcl 86400
  let secs := (lcl - days * 86400).toNat
  let c := civil_from_days days
  ⟨c.1, c.2.1, c.2.2, secs / 3600, secs / 60 % 60, secs % 60, off⟩

/-- Model of `datetime + timedelta` on aware datetimes: same timezone,
instant shifted by the delta. -/
def PyDatetime.add (dt : PyDatetime) (td : PyTimedelta) : PyDatetime :=
  PyDatetime.ofEpochSeconds (dt.toEpochSeconds + td.total_seconds) dt.utc_offset

/-- Model of `dt.astimezone()`: the same instant expressed in the local
timezone. -/
def PyDatetime.astimezone (dt : PyDatetime) (local_offset : Int) : PyDatetime :=
  PyDatetime.ofEpochSeconds dt.toEpochSeconds local_offset

/-- Zero-padded two-digit decimal rendering. -/
def pad2 (n : Nat) : String :=
  if n < 10 then "0" ++ toString n else toString n

/-- Zero-padded four-digit decimal rendering of a year in 1..9999. -/
def pad4 (y : Int) : String :=
  let n := y.toNat
  if n < 10 then "000" ++ toString n
  else if n < 100 then "00" ++ toString n
  else if n < 1000 then "0" ++ toString n
  else toString n

/-- Model of `dt.date().isoformat()`. -/
def PyDatetime.date_isoformat (dt : PyDatetime) : String :=
  pad4 dt.year ++ "-" ++ pad2 dt.month ++ "-" ++ pad2 dt.day

/-- Model of `dt.time().isoformat(timespec="seconds")`. -/
def PyDatetime.time_isoformat (dt : PyDatetime) : String :=
  pad2 dt.hour ++ ":" ++ pad2 dt.minute ++ ":" ++ pad2 dt.second

/-- Rendering of a UTC offset as the `+HH:MM` suffix of `isoformat`. -/
def offset_isoformat (off : Int) : String :=
  let sign := if off < 0 then "-" else "+"
  let a := off.natAbs
  sign ++ pad2 (a / 3600) ++ ":" ++ pad2 (a % 3600 / 60)

/-- Model of `dt.isoformat(timespec="seconds")` on an aware datetime. -/
def PyDatetime.datetime_isoformat (dt : PyDatetime) : String :=
  dt.date_isoformat ++ "T" ++ dt.time_isoformat ++ offset_isoformat dt.utc_offset

/-- Source `SarvClient.iso_time_output` (`sarv_client.py` lines 77-104),
as the two-parameter function its `def` declares: a `timedelta` is first
resolved to `datetime.now(timezone.utc) + dt`; mode `date` formats the
civil date, mode `datetime` formats `dt.astimezone()` with seconds
precision, mode `time` formats the clock time; any other mode raises
`TypeError`. -/
def SarvClient.iso_time_output (env : TimeEnv) (output_method : String)
    (dt : PyDatetime ⊕ PyTimedelta) : Except String String :=
  let dt2 : PyDatetime :=
    match dt with
    | Sum.inl d => d
    | Sum.inr td => env.now_utc.add td
  if output_method = "date" then
    Except.ok dt2.date_isoformat
  else if output_method = "datetime" then
    Except.ok (dt2.astimezone env.local_offset).datetime_isoformat
  else if output_method = "time" then
    Except.ok dt2.time_isoformat
  else
    Except.error ("Invalid output method: " ++ output_method)

/-- Outcome of invoking `iso_time_output` as a bound method,
`client.iso_time_output(mode, dt)`.  The `def` on line 77 of
`sarv_client.py` has exactly two parameters and no `self`, so Python
method binding prepends the instance and the call supplies three
positional arguments to a two-parameter function: every such call
raises `TypeError` before the function body runs. -/
def SarvClient.iso_time_output_method_call (_self : ClientState)
    (_env : TimeEnv) (_output_method : String)
    (_dt : PyDatetime ⊕ PyTimedelta) : Except String String :=
  Except.error
    "TypeError: iso_time_output() takes 2 positional arguments but 3 were given"

/-!
## Dictionary lemmas
-/

/-- A value that tests `isNull = false` is not the null value. -/
theorem ne_null_of_isNull_eq_false (v : JValue) (h : v.isNull = false) :
    v ≠ JValue.null := by
  intro he
  subst he
  simp [JValue.isNull] at h

/-- Inserting a value satisfying `P` into a dict whose values all satisfy
`P` keeps every value satisfying `P`. -/
theorem dictInsert_forall (P : JValue → Prop) (d : PyDict) (k : String)
    (v : JValue) (hd : ∀ kv ∈ d, P kv.2) (hv : P v) :
    ∀ kv ∈ dictInsert d k v, P kv.2 := by
  induction d with
  | nil =>
    intro kv hkv
    simp [dictInsert] at hkv
    subst hkv
    exact hv
  | cons head rest ih =>
    intro kv hkv
    obtain ⟨k2, v2⟩ := head
    simp only [dictInsert] at hkv
    by_cases hk : k2 = k
    · simp [hk] at hkv
      rcases hkv with h | h
      · subst h; exact hv
      · exact hd kv (List.mem_cons_of_mem _ h)
    · simp [hk] at hkv
      rcases hkv with h | h
      · subst h; exact hd (k2, v2) (List.mem_cons_self _ _)
      · exact ih (fun kv2 h2 => hd kv2 (List.mem_cons_of_mem _ h2)) kv h

/-- Updating a dict whose values all satisfy `P` with entries whose
values all satisfy `P` keeps every value satisfying `P`. -/
theorem dictUpdate_forall (P : JValue → Prop) (d adds : PyDict)
    (hd : ∀ kv ∈ d, P kv.2) (ha : ∀ kv ∈ adds, P kv.2) :
    ∀ kv ∈ dictUpdate d adds, P kv.2 := by
  induction adds generalizing d with
  | nil => exact hd
  | cons a adds ih =>
    intro kv hkv
    have hstep : dictUpdate d (a :: adds) = dictUpdate (dictInsert d a.1 a.2) adds := rfl
    rw [hstep] at hkv
    exact ih (dictInsert d a.1 a.2)
      (dictInsert_forall P d a.1 a.2 hd (ha a (List.mem_cons_self _ _)))
      (fun kv2 h2 => ha kv2 (List.mem_cons_of_mem _ h2)) kv hkv

/-- Looking up the key just inserted finds the inserted value. -/
theorem dictGet_dictInsert_self (d : PyDict) (k : String) (v : JValue) :
    dictGet (dictInsert d k v) k = some v := by
  induction d with
  | nil => simp [dictInsert, dictGet]
  | cons head rest ih =>
    obtain ⟨k2, v2⟩ := head
    by_cases hk : k2 = k
    · simp [dictInsert, dictGet, hk]
    · simp [dictInsert, dictGet, hk, ih]

/-- Looking up any other key is unaffected by an insertion. -/
theorem dictGet_dictInsert_other (d : PyDict) (k k2 : String) (v : JValue)
    (h : k2 ≠ k) :
    dictGet (dictInsert d k v) k2 = dictGet d k2 := by
  induction d with
  | nil => simp [dictInsert, dictGet, Ne.symm h]
  | cons head rest ih =>
    obtain ⟨k3, v3⟩ := head
    by_cases hk : k3 = k
    · subst hk
      simp [dictInsert, dictGet, Ne.symm h]
    · simp only [dictInsert, if_neg hk]
      by_cases hk2 : k3 = k2
      · simp [dictGet, hk2]
      · simp [dictGet, hk2, ih]

/-- A dict with a successful lookup is not empty. -/
theorem ne_nil_of_dictGet_eq_some (d : PyDict) (k : String) (v : JValue)
    (h : dictGet d k = some v) : d ≠ [] := by
  intro he
  subst he
  simp [dictGet] at h

/-!
## The claims
-/

/-- C1 (counterexample): the claim quantifies over every set of extra
named parameters, but `create_get_parms` filters `None` only out of the
`method` and `module` entries — an extra parameter passed with value
`None` survives into the returned map, so the map does contain a key
whose associated value is null. -/
theorem create_get_parms_keeps_null_extra :
    ¬ (∀ kv ∈ SarvClient.create_get_parms none none [("x", JValue.null)],
        kv.2 ≠ JValue.null) := by
  intro h
  exact h ("x", JValue.null) (by simp [SarvClient.create_get_parms, dictUpdate, dictInsert]) rfl

/-- C1 (amended): for every operation name, every module argument and
every set of extra named parameters none of whose values is null, the
query-parameter map returned by `create_get_parms` never contains a key
whose associated value is null. -/
theorem create_get_parms_values_not_null (sarv_get_method : Option String)
    (sarv_module : Option (SarvModule ⊕ String)) (addition : PyDict)
    (h : ∀ kv ∈ addition, kv.2 ≠ JValue.null) :
    ∀ kv ∈ SarvClient.create_get_parms sarv_get_method sarv_module addition,
      kv.2 ≠ JValue.null := by
  intro kv hkv
  simp only [SarvClient.create_get_parms] at hkv
  refine dictUpdate_forall (fun v => v ≠ JValue.null) _ _ ?_ h kv hkv
  intro kv2 hkv2
  have h2 := List.mem_filter.mp hkv2
  exact ne_null_of_isNull_eq_false kv2.2 (by simpa using h2.2)

/-- C1 (witness): at the concrete call
`create_get_parms("Retrieve", "Contacts", id="1")`, whose extra
parameter is non-null, no entry with a null value — here probed with
key "x1" — is in the result. -/
theorem create_get_parms_values_not_null_witness :
    ¬ (("x1", JValue.null) ∈ SarvClient.create_get_parms (some "Retrieve")
        (some (Sum.inr "Contacts")) [("id", JValue.str "1")]) :=
  fun hmem =>
    create_get_parms_values_not_null (some "Retrieve")
      (some (Sum.inr "Contacts")) [("id", JValue.str "1")]
      (by simp) ("x1", JValue.null) hmem rfl

/-- C2 (counterexample): when the caller already supplies an
`Authorization` entry in `head_parms` and the token is empty,
`send_request` leaves that entry in the headers — the headers contain
`Authorization: Bearer <token>` (with the empty token) although the
token is not non-empty, refuting the "only if" direction of the
claim. -/
theorem send_request_keeps_preexisting_auth_header :
    dictGet (SarvClient.build_head_parms (JValue.str "")
        [("Authorization", JValue.str ("Bearer " ++ (JValue.str "").pyStr))])
      "Authorization"
      = some (JValue.str ("Bearer " ++ (JValue.str "").pyStr)) ∧
    (JValue.str "").truthy = false := by
  constructor
  · rfl
  · rfl

/-- C2 (amended): provided the caller-supplied header dict does not
already contain an `Authorization` entry, the headers sent by
`send_request` always include `Content-Type: application/json`, and
include `Authorization: Bearer <token>` exactly when the client's token
is a non-empty string; a falsy token (in particular the one left by
`logout`, whose result is never truthy) yields no `Authorization`
header. -/
theorem send_request_header_invariant (t : String) (head_parms : PyDict)
    (hauth : dictGet head_parms "Authorization" = none) :
    dictGet (SarvClient.build_head_parms (JValue.str t) head_parms)
        "Content-Type" = some (JValue.str "application/json") ∧
    (dictGet (SarvClient.build_head_parms (JValue.str t) head_parms)
        "Authorization" = some (JValue.str ("Bearer " ++ t)) ↔ t ≠ "") ∧
    (∀ tok : JValue, tok.truthy = false →
      dictGet (SarvClient.build_head_parms tok head_parms) "Authorization"
        = none) ∧
    (∀ s : ClientState, (SarvClient.logout s).token.truthy = false) := by
  have hother : ∀ tok : JValue, tok.truthy = false →
      dictGet (SarvClient.build_head_parms tok head_parms) "Authorization"
        = none := by
    intro tok htok
    simp only [SarvClient.build_head_parms, htok, Bool.false_eq_true, if_false]
    rw [dictGet_dictInsert_other _ _ _ _ (by decide)]
    exact hauth
  refine ⟨?_, ⟨?_, ?_⟩, hother, ?_⟩
  · by_cases ht : t = ""
    · subst ht
      simp only [SarvClient.build_head_parms, JValue.truthy]
      rw [if_neg (by simp)]
      exact dictGet_dictInsert_self _ _ _
    · simp only [SarvClient.build_head_parms, JValue.truthy]
      rw [if_pos (by simpa using ht)]
      rw [dictGet_dictInsert_other _ _ _ _ (by decide)]
      exact dictGet_dictInsert_self _ _ _
  · intro hsome ht
    subst ht
    rw [hother (JValue.str "") rfl] at hsome
    exact Option.noConfusion hsome
  · intro ht
    simp only [SarvClient.build_head_parms, JValue.truthy]
    rw [if_pos (by simpa using ht)]
    have : (JValue.str t).pyStr = t := rfl
    rw [this]
    exact dictGet_dictInsert_self _ _ _
  · intro s
    unfold SarvClient.logout
    by_cases hs : s.token.truthy = true
    · rw [if_pos hs]
      rfl
    · rw [if_neg hs]
      simpa using hs

/-- C2 (witness): with token "tok" and an empty caller header dict, the
built headers carry the JSON content type and the bearer header. -/
theorem send_request_header_invariant_witness :
    dictGet (SarvClient.build_head_parms (JValue.str "tok") [])
        "Content-Type" = some (JValue.str "application/json") ∧
    dictGet (SarvClient.build_head_parms (JValue.str "tok") [])
        "Authorization" = some (JValue.str ("Bearer " ++ "tok")) :=
  ⟨(send_request_header_invariant "tok" [] rfl).1,
   (send_request_header_invariant "tok" [] rfl).2.1.mpr (by decide)⟩

/-- C3: for every response with status in 200-299 whose body is a JSON
object, `send_request` returns the value of the body's `data` field,
and the empty object when the `data` field is absent. -/
theorem send_request_success_returns_data (status : Nat) (body : PyDict)
    (h1 : 200 ≤ status) (h2 : status < 300) :
    (∀ v, dictGet body "data" = some v →
      SarvClient.interpret_response ⟨status, some body⟩ =
        SendResult.success v) ∧
    (dictGet body "data" = none →
      SarvClient.interpret_response ⟨status, some body⟩ =
        SendResult.success (JValue.obj [])) := by
  have hr : SarvClient.interpret_response ⟨status, some body⟩ =
      SendResult.success (dictGetD body "data" (JValue.obj [])) := by
    unfold SarvClient.interpret_response
    dsimp only
    rw [if_pos ⟨h1, by omega⟩, if_pos ⟨h1, h2⟩]
  constructor
  · intro v hv
    rw [hr]
    unfold dictGetD
    rw [hv]
    rfl
  · intro hn
    rw [hr]
    unfold dictGetD
    rw [hn]
    rfl

/-- C3 (witness): status 201 with body containing
`data = ob with id "42"` yields exactly that object. -/
theorem send_request_success_returns_data_witness :
    SarvClient.interpret_response
        ⟨201, some [("data", JValue.obj [("id", JValue.str "42")])]⟩ =
      SendResult.success (JValue.obj [("id", JValue.str "42")]) :=
  (send_request_success_returns_data 201
    [("data", JValue.obj [("id", JValue.str "42")])]
    (by decide) (by decide)).1 (JValue.obj [("id", JValue.str "42")]) rfl

/-- C4 (counterexample): at status 600 — outside the 400-599 band in
which `raise_for_status` raises — `send_request` does not surface the
raw transport failure: it falls through to line 161 and fails with
`UnboundLocalError` on the never-assigned `response_dict`, whatever the
body was, so the claim's "status >= 500 fails with the raw transport
failure" is false at status 600. -/
theorem send_request_status_600_unbound_local :
    SarvClient.interpret_response ⟨600, none⟩ =
      SendResult.unboundLocalError ∧
    SarvClient.interpret_response ⟨600, some [("message", JValue.str "oops")]⟩ =
      SendResult.unboundLocalError ∧
    SendResult.unboundLocalError ≠ SendResult.transportError 600 :=
  ⟨rfl, rfl, fun h => SendResult.noConfusion h⟩

/-- C4 (amended): `send_request` classifies responses by status range.
A 3xx status with a JSON-object body fails at the redirection raise
site with the body's `message` field (default "Unknown error"); a 4xx
status with a JSON-object body fails at the API-error raise site with
the same message extraction and the status; a status in [500, 600)
fails by `raise_for_status` with the raw transport failure regardless
of the body, which is never decoded; a status of 600 or more falls
through `raise_for_status` and fails with `UnboundLocalError`, again
with no decode; and a body is JSON-decoded (so an undecodable body
surfaces a decode error) exactly when the status is in [200, 500). -/
theorem send_request_error_classification (status : Nat) (body : PyDict) :
    (300 ≤ status → status < 400 →
      SarvClient.interpret_response ⟨status, some body⟩ =
        SendResult.redirectionError status
          (dictGetD body "message" (JValue.str "Unknown error"))) ∧
    (400 ≤ status → status < 500 →
      SarvClient.interpret_response ⟨status, some body⟩ =
        SendResult.apiError status
          (dictGetD body "message" (JValue.str "Unknown error"))) ∧
    (500 ≤ status → status < 600 → ∀ b : Option PyDict,
      SarvClient.interpret_response ⟨status, b⟩ =
        SendResult.transportError status) ∧
    (600 ≤ status → ∀ b : Option PyDict,
      SarvClient.interpret_response ⟨status, b⟩ =
        SendResult.unboundLocalError) ∧
    ((200 ≤ status ∧ status < 500) ↔
      SarvClient.interpret_response ⟨status, none⟩ =
        SendResult.jsonDecodeError) := by
  refine ⟨?_, ?_, ?_, ?_, ?_, ?_⟩
  · intro h1 h2
    unfold SarvClient.interpret_response
    dsimp only
    rw [if_pos ⟨by omega, by omega⟩]
    rw [if_neg (by omega), if_pos ⟨h1, h2⟩]
  · intro h1 h2
    unfold SarvClient.interpret_response
    dsimp only
    rw [if_pos ⟨by omega, h2⟩]
    rw [if_neg (by omega), if_neg (by omega)]
  · intro h1 h2 b
    unfold SarvClient.interpret_response
    dsimp only
    rw [if_neg (by omega), if_pos (by omega)]
  · intro h1 b
    unfold SarvClient.interpret_response
    dsimp only
    rw [if_neg (by omega), if_neg (by omega)]
  · intro hin
    unfold SarvClient.interpret_response
    dsimp only
    rw [if_pos hin]
  · intro heq
    by_contra hout
    unfold SarvClient.interpret_response at heq
    dsimp only at heq
    rw [if_neg hout] at heq
    by_cases h4 : 400 ≤ status ∧ status < 600
    · rw [if_pos h4] at heq
      exact SendResult.noConfusion heq
    · rw [if_neg h4] at heq
      exact SendResult.noConfusion heq

/-- C5: `login` POSTs the filtered credentials under the `Login`
operation; when the returned data envelope is a dict carrying a token
it stores that token and returns it; when the envelope is falsy the
client state is unchanged and the unchanged token is returned. -/
theorem login_behavior (s : ClientState) :
    (SarvClient.login_request s).request_method = "POST" ∧
    (SarvClient.login_request s).get_parms = [("method", JValue.str "Login")] ∧
    (∀ lt, s.login_type = some lt →
      (SarvClient.login_request s).post_parms =
        [("utype", JValue.str s.utype), ("user_name", JValue.str s.username),
         ("password", JValue.str s.password), ("login_type", JValue.str lt),
         ("language", JValue.str s.language)]) ∧
    (s.login_type = none →
      (SarvClient.login_request s).post_parms =
        [("utype", JValue.str s.utype), ("user_name", JValue.str s.username),
         ("password", JValue.str s.password),
         ("language", JValue.str s.language)]) ∧
    (∀ d v, dictGet d "token" = some v →
      SarvClient.login_step s (JValue.obj d) =
        Except.ok ({ s with token := v }, v)) ∧
    (∀ data : JValue, data.truthy = false →
      SarvClient.login_step s data = Except.ok (s, s.token)) := by
  refine ⟨rfl, rfl, ?_, ?_, ?_, ?_⟩
  · intro lt hlt
    simp only [SarvClient.login_request, SarvClient.login_post_parms, hlt]
    rfl
  · intro hnone
    simp only [SarvClient.login_request, SarvClient.login_post_parms, hnone]
    rfl
  · intro d v hv
    have hd : d ≠ [] := ne_nil_of_dictGet_eq_some d "token" v hv
    have htr : (JValue.obj d).truthy = true := by
      cases d with
      | nil => exact absurd rfl hd
      | cons a l => rfl
    unfold SarvClient.login_step
    rw [if_pos htr]
    have hgd : dictGetD d "token" JValue.null = v := by
      unfold dictGetD
      rw [hv]
      rfl
    dsimp only
    rw [hgd]
  · intro data hdata
    unfold SarvClient.login_step
    rw [if_neg (by simp [hdata])]

/-- C5 (witness): a client whose login response envelope is
`token = "T1"` ends with token `"T1"` stored and returned, and a falsy
(empty-object) envelope leaves the fresh client's empty token in
place. -/
theorem login_behavior_witness :
    SarvClient.login_step
        (SarvClient.init "https://crm.example" "corp" "alice" "pw" none
          "en_US" true)
        (JValue.obj [("token", JValue.str "T1")]) =
      Except.ok
        ({ SarvClient.init "https://crm.example" "corp" "alice" "pw" none
            "en_US" true with token := JValue.str "T1" },
         JValue.str "T1") ∧
    SarvClient.login_step
        (SarvClient.init "https://crm.example" "corp" "alice" "pw" none
          "en_US" true)
        (JValue.obj []) =
      Except.ok
        (SarvClient.init "https://crm.example" "corp" "alice" "pw" none
          "en_US" true,
         JValue.str "") :=
  ⟨(login_behavior _).2.2.2.2.1 [("token", JValue.str "T1")]
      (JValue.str "T1") rfl,
   (login_behavior _).2.2.2.2.2 (JValue.obj []) rfl⟩

/-- C6: `read_record` issues a GET under operation `Retrieve` with the
id in the query parameters; indexing the returned payload gives its
first element for a non-empty list and an `IndexError` for the empty
list. -/
theorem read_record_behavior (m : SarvModule) (pk : String) :
    (SarvModule.read_record_request m pk).request_method = "GET" ∧
    (SarvModule.read_record_request m pk).get_parms =
      [("method", JValue.str "Retrieve"),
       ("module", JValue.str m.module_name), ("id", JValue.str pk)] ∧
    (SarvModule.read_record_request m pk).post_parms = [] ∧
    pyIndexZero (JValue.arr []) =
      Except.error "IndexError: list index out of range" ∧
    (∀ x xs, pyIndexZero (JValue.arr (x :: xs)) = Except.ok x) :=
  ⟨rfl, rfl, rfl, rfl, fun _ _ => rfl⟩

/-- C7: the formatting logic of `iso_time_output` behaves as claimed on
the two-parameter function the `def` declares — mode `date` on
2024-01-05T10:00:00Z gives "2024-01-05", mode `time` gives "10:00:00",
mode `datetime` gives the ISO-8601 instant rebased to the local offset
(+03:30 here), a duration is resolved against now + duration in UTC
before formatting, and an unknown mode is rejected — but calling it as
a client method, as the claim states, always fails: the `def` on line
77 of `sarv_client.py` takes no `self`, so the bound call passes three
positional arguments to a two-parameter function and raises `TypeError`
before any formatting runs. -/
theorem iso_time_output_formatting_but_method_call_fails :
    SarvClient.iso_time_output
        ⟨⟨2024, 1, 5, 10, 0, 0, 0⟩, 12600⟩ "date"
        (Sum.inl ⟨2024, 1, 5, 10, 0, 0, 0⟩) = Except.ok "2024-01-05" ∧
    SarvClient.iso_time_output
        ⟨⟨2024, 1, 5, 10, 0, 0, 0⟩, 12600⟩ "time"
        (Sum.inl ⟨2024, 1, 5, 10, 0, 0, 0⟩) = Except.ok "10:00:00" ∧
    SarvClient.iso_time_output
        ⟨⟨2024, 1, 5, 10, 0, 0, 0⟩, 12600⟩ "datetime"
        (Sum.inl ⟨2024, 1, 5, 10, 0, 0, 0⟩) =
      Except.ok "2024-01-05T13:30:00+03:30" ∧
    SarvClient.iso_time_output
        ⟨⟨2024, 1, 5, 10, 0, 0, 0⟩, 12600⟩ "date" (Sum.inr ⟨90061⟩) =
      Except.ok "2024-01-06" ∧
    SarvClient.iso_time_output
        ⟨⟨2024, 1, 5, 10, 0, 0, 0⟩, 12600⟩ "duration"
        (Sum.inl ⟨2024, 1, 5, 10, 0, 0, 0⟩) =
      Except.error "Invalid output method: duration" ∧
    SarvClient.iso_time_output_method_call
        (SarvClient.init "https://crm.example" "corp" "alice" "pw" none
          "en_US" true)
        ⟨⟨2024, 1, 5, 10, 0, 0, 0⟩, 12600⟩ "date"
        (Sum.inl ⟨2024, 1, 5, 10, 0, 0, 0⟩) =
      Except.error
        "TypeError: iso_time_output() takes 2 positional arguments but 3 were given" :=
  ⟨rfl, rfl, rfl, rfl, rfl, rfl⟩

set_option maxRecDepth 100000 in
/-- C8: at construction the stored credential is the password verbatim
when `is_password_md5` is true and its MD5 hex digest otherwise; in
particular for password "secret" the stored credential is the MD5 hex
digest of "secret". -/
theorem init_password_hashing (base_url utype username password : String)
    (login_type : Option String) (language : String) :
    (SarvClient.init base_url utype username password login_type language
        true).password = password ∧
    (SarvClient.init base_url utype username password login_type language
        false).password = md5_hex password ∧
    (SarvClient.init "https://crm.example" "corp" "alice" "secret" none
        "en_US" false).password = "5ebe2294ecd0e0f08eab7690d2a6ee69" ∧
    (SarvClient.init "https://crm.example" "corp" "alice" "secret" none
        "en_US" true).password = "secret" :=
  ⟨rfl, rfl, rfl, rfl⟩

/-- C9 (counterexample): a caller-supplied empty header dict is falsy,
so the line `head_parms = head_parms or` a fresh dict rebinds the local
name and the caller's own dict is never written to: after the call it
still lacks the `Content-Type` key the claim promises. -/
theorem send_request_empty_head_dict_not_mutated :
    SarvClient.send_request_head_effect (JValue.str "tok") [] = [] ∧
    dictGet (SarvClient.send_request_head_effect (JValue.str "tok") [])
      "Content-Type" = none :=
  ⟨rfl, rfl⟩

/-- C9 (amended): when the caller passes a non-empty header dict,
`send_request` mutates that same dict in place: after the call it
contains the added `Content-Type` entry (and the `Authorization` bearer
entry when the token is truthy) while every entry under any other key
is unchanged; an empty caller dict is replaced by a fresh internal dict
and left untouched. -/
theorem send_request_head_mutation (token : JValue) (caller : PyDict)
    (h : caller ≠ []) :
    dictGet (SarvClient.send_request_head_effect token caller)
        "Content-Type" = some (JValue.str "application/json") ∧
    (token.truthy = true →
      dictGet (SarvClient.send_request_head_effect token caller)
          "Authorization" =
        some (JValue.str ("Bearer " ++ token.pyStr))) ∧
    (∀ k, k ≠ "Content-Type" → k ≠ "Authorization" →
      dictGet (SarvClient.send_request_head_effect token caller) k =
        dictGet caller k) := by
  have heff : SarvClient.send_request_head_effect token caller =
      SarvClient.build_head_parms token caller := by
    unfold SarvClient.send_request_head_effect
    rw [if_neg (by simpa using h)]
  refine ⟨?_, ?_, ?_⟩
  · rw [heff]
    unfold SarvClient.build_head_parms
    by_cases ht : token.truthy = true
    · rw [if_pos ht, dictGet_dictInsert_other _ _ _ _ (by decide)]
      exact dictGet_dictInsert_self _ _ _
    · rw [if_neg ht]
      exact dictGet_dictInsert_self _ _ _
  · intro ht
    rw [heff]
    unfold SarvClient.build_head_parms
    rw [if_pos ht]
    exact dictGet_dictInsert_self _ _ _
  · intro k hct hauth
    rw [heff]
    unfold SarvClient.build_head_parms
    by_cases ht : token.truthy = true
    · rw [if_pos ht, dictGet_dictInsert_other _ _ _ _ hauth,
        dictGet_dictInsert_other _ _ _ _ hct]
    · rw [if_neg ht, dictGet_dictInsert_other _ _ _ _ hct]

/-- C9 (witness): a caller dict holding only an `X-Trace` entry, with a
truthy token, ends up with `Content-Type` and the bearer header added
and its `X-Trace` entry intact. -/
theorem send_request_head_mutation_witness :
    dictGet (SarvClient.send_request_head_effect (JValue.str "tok")
        [("X-Trace", JValue.str "1")]) "Content-Type" =
      some (JValue.str "application/json") ∧
    dictGet (SarvClient.send_request_head_effect (JValue.str "tok")
        [("X-Trace", JValue.str "1")]) "Authorization" =
      some (JValue.str ("Bearer " ++ (JValue.str "tok").pyStr)) ∧
    dictGet (SarvClient.send_request_head_effect (JValue.str "tok")
        [("X-Trace", JValue.str "1")]) "X-Trace" = some (JValue.str "1") :=
  ⟨(send_request_head_mutation (JValue.str "tok")
      [("X-Trace", JValue.str "1")] (by simp)).1,
   (send_request_head_mutation (JValue.str "tok")
      [("X-Trace", JValue.str "1")] (by simp)).2.1 rfl,
   (send_request_head_mutation (JValue.str "tok")
      [("X-Trace", JValue.str "1")] (by simp)).2.2 "X-Trace"
      (by decide) (by decide)⟩

/-- C10: a truthy login data envelope that lacks a `token` key — here
one carrying only a `user_id` field — makes `login` store `None`
(`JValue.null`) in the token field and return `None`, which is not a
string; in particular it is not the empty string that stands for
"unauthenticated", so the string convention for the token is not
preserved by `login` for every response. -/
theorem login_truthy_envelope_without_token_stores_none :
    SarvClient.login_step
        (SarvClient.init "https://crm.example" "corp" "alice" "pw" none
          "en_US" true)
        (JValue.obj [("user_id", JValue.str "7")]) =
      Except.ok
        ({ SarvClient.init "https://crm.example" "corp" "alice" "pw" none
            "en_US" true with token := JValue.null },
         JValue.null) ∧
    (JValue.obj [("user_id", JValue.str "7")]).truthy = true ∧
    dictGet [("user_id", JValue.str "7")] "token" = none ∧
    JValue.null ≠ JValue.str "" ∧
    (∀ s : String, JValue.null ≠ JValue.str s) :=
  ⟨rfl, rfl, rfl, fun h => JValue.noConfusion h,
   fun _ h => JValue.noConfusion h⟩
